import Mathlib

/-!
Shallow embedding of the RAG chatbot repository (src/config/logger_config.py,
src/indexing/create_index.py, src/ingesting/ingest.py, src/query/query.py).

The three external services (Azure OpenAI embeddings, Azure AI Search, Azure
OpenAI chat completions) are modelled as oracles whose fallible calls return
`Except String α`; a Python exception raised by an SDK call corresponds to the
`Except.error` outcome, and Python `raise` / re-raise corresponds to returning
that `Except.error` to the caller.  The embedding-vector type is an opaque
parameter `E` (the code never inspects the vector, it only passes it from the
embeddings API to the search API).  Functions additionally return the ordered
list of service calls they issued, so that claims about call order and call
parameters can be stated.
-/

namespace RagBot

/-- A chat message, as the dicts `{"role": ..., "content": ...}` in query.py. -/
structure Message where
  role : String
  content : String
deriving DecidableEq, Repr

/-- One result row of `search_client.search` restricted to the selected fields
`content`, `metadata`, `doc_id`; `none` models an absent/null field, so that
Python's `r.get("content")` is `content` and `r.get("metadata", "")` is
`metadata.getD ""`. -/
structure SearchResult where
  content : Option String
  metadata : Option String
  doc_id : Option String
deriving DecidableEq, Repr

/-- The vector-query dict passed in `vector_queries=[{...}]` in query.py. -/
structure VectorQuery (E : Type) where
  kind : String
  vector : E
  fields : String
  k : Nat
deriving DecidableEq, Repr

/-- A record of one outgoing service call, with the parameters the code passes. -/
inductive ServiceCall (E : Type) where
  | embedCall (input : String) (model : String)
  | searchCall (search_text : String) (vq : VectorQuery E) (select_fields : List String)
  | chatCall (model : String) (messages : List Message) (temperature_tenths : Nat)
      (max_tokens : Nat)
deriving DecidableEq, Repr

/-- The external-service oracles used by query.py.
`embed input model` models `aoai_client.embeddings.create(input=..., model=...)
.data[0].embedding`; `search search_text vq select_fields` models
`search_client.search(...)` together with iterating its results; `chat model
messages temperature_tenths max_tokens` models
`aoai_client.chat.completions.create(...).choices[0].message.content`
(temperature 0.2 is recorded as 2 tenths). -/
structure Services (E : Type) where
  embed : String → String → Except String E
  search : String → VectorQuery E → List String → Except String (List SearchResult)
  chat : String → List Message → Nat → Nat → Except String String

/-- The environment, `os.getenv`: `none` when a variable is unset. -/
structure Env where
  getenv : String → Option String

/-- Python truthiness of an optional string: falsy when unset (`None`) or empty. -/
def py_truthy : Option String → Bool
  | none => false
  | some s => !s.isEmpty

/-- The configuration values query.py reads at module start. -/
structure QueryConfig where
  openai_endpoint : String
  openai_key : String
  chat_deployment : String
  embed_deployment : String
  search_endpoint : String
  search_key : String
  search_index : String
deriving DecidableEq, Repr

/-- The environment reads and validity checks at the top of query.py
(section 1): the Azure OpenAI check runs first, then the Azure Search check;
each failing check raises `ValueError` with the message shown. -/
def query_module_config (env : Env) : Except String QueryConfig :=
  let aoai_endpoint := env.getenv "AZURE_OPENAI_ENDPOINT"
  let aoai_key := env.getenv "AZURE_OPENAI_API_KEY"
  let chat_deployment := (env.getenv "AZURE_OPENAI_CHAT_DEPLOYMENT").getD "chat"
  let embed_deployment := (env.getenv "AZURE_OPENAI_EMBED_DEPLOYMENT").getD "embed"
  let search_endpoint := env.getenv "AZURE_SEARCH_ENDPOINT"
  let search_key := env.getenv "AZURE_SEARCH_API_KEY"
  let search_index := env.getenv "AZURE_SEARCH_INDEX"
  if !py_truthy aoai_endpoint || !py_truthy aoai_key then
    Except.error "Azure OpenAI settings must be set in environment variables"
  else if !py_truthy search_endpoint || !py_truthy search_key || !py_truthy search_index then
    Except.error "Azure Search settings must be set in environment variables"
  else
    Except.ok
      { openai_endpoint := aoai_endpoint.getD ""
        openai_key := aoai_key.getD ""
        chat_deployment := chat_deployment
        embed_deployment := embed_deployment
        search_endpoint := search_endpoint.getD ""
        search_key := search_key.getD ""
        search_index := search_index.getD "" }

/-- The `AzureOpenAI(...)` client object constructed in query.py section 2. -/
structure AoaiClient where
  api_key : String
  api_version : String
  azure_endpoint : String
deriving DecidableEq, Repr

/-- The `SearchClient(...)` object constructed in query.py section 3 (and in
ingest.py). -/
structure SearchClient where
  endpoint : String
  index_name : String
  key : String
deriving DecidableEq, Repr

/-- The clients query.py constructs after its configuration checks pass. -/
structure QueryClients where
  aoai_client : AoaiClient
  search_client : SearchClient
deriving DecidableEq, Repr

/-- Module start of query.py: validate configuration, and only on success
construct the two service clients (sections 1 to 3). -/
def query_module_startup (env : Env) : Except String (QueryConfig × QueryClients) :=
  match query_module_config env with
  | Except.error e => Except.error e
  | Except.ok cfg =>
    Except.ok (cfg,
      { aoai_client := ⟨cfg.openai_key, "2024-12-01-preview", cfg.openai_endpoint⟩
        search_client := ⟨cfg.search_endpoint, cfg.search_index, cfg.search_key⟩ })

/-- The `select=` field list passed to `search_client.search` in query.py. -/
def select_fields : List String := ["content", "metadata", "doc_id"]

/-- The body of the result-collection loop of `get_top_chunks` (query.py
step 3): keep a result only when its `content` is truthy, and then render
`f"{content}\n(Source: {metadata or doc_id})"`. -/
def chunk_of_result (r : SearchResult) : Option String :=
  let metadata := r.metadata.getD ""
  let doc_id := r.doc_id.getD ""
  match r.content with
  | none => none
  | some c =>
    if c = "" then none
    else some (c ++ "\n(Source: " ++ (if metadata = "" then doc_id else metadata) ++ ")")

/-- `get_top_chunks(query, top_k)` of query.py: embed the query, run a vector
search with `kind="vector"`, `fields="embedding"`, `k=top_k`, collect the
truthy-content results; any exception in the `try` block is caught and the
function returns `[]`.  The second component is the ordered trace of service
calls issued. -/
def get_top_chunks {E : Type} (cfg : QueryConfig) (svc : Services E) (query : String)
    (top_k : Nat) : List String × List (ServiceCall E) :=
  match svc.embed query cfg.embed_deployment with
  | Except.error _ => ([], [ServiceCall.embedCall query cfg.embed_deployment])
  | Except.ok query_embedding =>
    let vq : VectorQuery E := ⟨"vector", query_embedding, "embedding", top_k⟩
    match svc.search "" vq select_fields with
    | Except.error _ =>
      ([], [ServiceCall.embedCall query cfg.embed_deployment,
            ServiceCall.searchCall "" vq select_fields])
    | Except.ok results =>
      (results.filterMap chunk_of_result,
       [ServiceCall.embedCall query cfg.embed_deployment,
        ServiceCall.searchCall "" vq select_fields])

/-- `"\n".join(context_chunks) if context_chunks else ""` in `generate_answer`. -/
def context_text_of (chunks : List String) : String :=
  if chunks = [] then "" else String.intercalate "\n" chunks

/-- The system instruction appended in `generate_answer` step 3. -/
def system_instruction : String :=
  "You are a helpful assistant. Use the provided context to answer questions accurately. " ++
  "If the context is insufficient, give the most careful, concise answer possible. " ++
  "Always cite the sources when available. Do not hallucinate beyond the context."

/-- The `messages` list `generate_answer` sends to the chat API: a (deep) copy
of the chat history, then the system instruction, then the user query with the
retrieved context attached (steps 2 to 4 of `generate_answer`). -/
def assembled_messages {E : Type} (cfg : QueryConfig) (svc : Services E)
    (user_query : String) (chat_history : List Message) : List Message :=
  chat_history ++
    [⟨"system", system_instruction⟩,
     ⟨"user", "Context:\n" ++ context_text_of (get_top_chunks cfg svc user_query 10).1 ++
        "\n\nQuestion: " ++ user_query⟩]

/-- The outcome of one `generate_answer` call: the returned answer, the updated
chat history, and the traces of retrieval calls and chat-completion calls. -/
structure GenOut (E : Type) where
  answer : String
  chat_history : List Message
  retrieval_calls : List (ServiceCall E)
  chat_calls : List (ServiceCall E)
deriving Repr

/-- `generate_answer(user_query, chat_history)` of query.py: retrieve context
with `get_top_chunks(user_query, top_k=10)`, assemble the prompt on a deep copy
of the history, call the chat API once (temperature 0.2, max_tokens 1000); on
an exception the answer becomes `f"Error generating response: {e}"`; finally
the caller's history is extended by the user turn and the assistant turn. -/
def generate_answer {E : Type} (cfg : QueryConfig) (svc : Services E)
    (user_query : String) (chat_history : List Message) : GenOut E :=
  let retrieval := get_top_chunks cfg svc user_query 10
  let messages := assembled_messages cfg svc user_query chat_history
  let answer :=
    match svc.chat cfg.chat_deployment messages 2 1000 with
    | Except.ok a => a
    | Except.error e => "Error generating response: " ++ e
  { answer := answer
    chat_history := chat_history ++ [⟨"user", user_query⟩, ⟨"assistant", answer⟩]
    retrieval_calls := retrieval.2
    chat_calls := [ServiceCall.chatCall cfg.chat_deployment messages 2 1000] }

/-- The Streamlit session state of query.py section 6. -/
structure SessionState where
  chat_history : List Message
deriving DecidableEq, Repr

/-- Rendering of the chat history in the Streamlit UI: each message is shown in
a chat bubble whose role is `"user"` when the message role is `"user"`, and
`"assistant"` otherwise. -/
def render_history (history : List Message) : List (String × String) :=
  history.map fun m => (if m.role = "user" then "user" else "assistant", m.content)

/-- The outcome of one submission of the chat input box: the new session state,
the ordered trace of service calls, and the chat transcript rendered after
`st.rerun()`. -/
structure HandlerOut (E : Type) where
  state : SessionState
  calls : List (ServiceCall E)
  rendered : List (String × String)
deriving Repr

/-- The `if prompt := st.chat_input(...)` block of query.py: run
`generate_answer(prompt, st.session_state.chat_history)`, store the returned
history in the session state, and rerun, which renders the updated history. -/
def chat_input_handler {E : Type} (cfg : QueryConfig) (svc : Services E)
    (prompt : String) (state : SessionState) : HandlerOut E :=
  let out := generate_answer cfg svc prompt state.chat_history
  { state := ⟨out.chat_history⟩
    calls := out.retrieval_calls ++ out.chat_calls
    rendered := render_history out.chat_history }

/-- The environment reads and validity check at the top of create_index.py:
the index name defaults to "client-manual-index"; endpoint and key must be
truthy or the module raises `ValueError`.  Returns (endpoint, key, index name). -/
def create_index_config (env : Env) : Except String (String × String × String) :=
  let endpoint := env.getenv "AZURE_SEARCH_ENDPOINT"
  let key := env.getenv "AZURE_SEARCH_API_KEY"
  let index_name := (env.getenv "AZURE_SEARCH_INDEX").getD "client-manual-index"
  if !py_truthy endpoint || !py_truthy key then
    Except.error "Azure Search endpoint and key must be set in environment variables"
  else
    Except.ok (endpoint.getD "", key.getD "", index_name)

/-- The `SearchIndexClient(...)` object of create_index.py step 2. -/
structure SearchIndexClient where
  endpoint : String
  key : String
deriving DecidableEq, Repr

/-- Module start of create_index.py, steps 1 and 2: validate configuration and
only then construct the index-management client. -/
def create_index_startup (env : Env) : Except String (SearchIndexClient × String) :=
  match create_index_config env with
  | Except.error e => Except.error e
  | Except.ok (endpoint, key, index_name) => Except.ok (⟨endpoint, key⟩, index_name)

/-- The index-management oracles used by create_index.py step 4:
`list_index_names` models `index_client.list_index_names()`, `delete_index`
models `index_client.delete_index(...)`, and `create_index name` models
`index_client.create_index(index)` for the schema named `name`. -/
structure IndexServices where
  list_index_names : Except String (List String)
  delete_index : String → Except String Unit
  create_index : String → Except String Unit

/-- The `try` block of create_index.py step 4: list existing indexes; if the
target index exists, delete it; then create the index.  Any exception is
logged and re-raised, i.e. the `Except.error` propagates unchanged. -/
def create_index_run (svc : IndexServices) (index_name : String) : Except String Unit :=
  match svc.list_index_names with
  | Except.error e => Except.error e
  | Except.ok existing_indexes =>
    if index_name ∈ existing_indexes then
      match svc.delete_index index_name with
      | Except.error e => Except.error e
      | Except.ok _ => svc.create_index index_name
    else
      svc.create_index index_name

/-- The configuration values ingest.py reads. -/
structure IngestConfig where
  search_endpoint : String
  search_key : String
  search_index : String
  aoai_endpoint : String
  aoai_key : String
  aoai_embed_model : String
deriving DecidableEq, Repr

/-- The environment reads and validity checks at the top of ingest.py: the
Azure Search check runs first, then the Azure OpenAI check (which includes the
embedding deployment name); each failing check raises `ValueError`. -/
def ingest_module_config (env : Env) : Except String IngestConfig :=
  let search_endpoint := env.getenv "AZURE_SEARCH_ENDPOINT"
  let search_key := env.getenv "AZURE_SEARCH_API_KEY"
  let search_index := env.getenv "AZURE_SEARCH_INDEX"
  let aoai_endpoint := env.getenv "AZURE_OPENAI_ENDPOINT"
  let aoai_key := env.getenv "AZURE_OPENAI_API_KEY"
  let aoai_embed_model := env.getenv "AZURE_OPENAI_EMBED_DEPLOYMENT"
  if !py_truthy search_endpoint || !py_truthy search_key || !py_truthy search_index then
    Except.error "Azure Search settings must be set in environment variables"
  else if !py_truthy aoai_endpoint || !py_truthy aoai_key || !py_truthy aoai_embed_model then
    Except.error "Azure OpenAI settings must be set in environment variables"
  else
    Except.ok
      { search_endpoint := search_endpoint.getD ""
        search_key := search_key.getD ""
        search_index := search_index.getD ""
        aoai_endpoint := aoai_endpoint.getD ""
        aoai_key := aoai_key.getD ""
        aoai_embed_model := aoai_embed_model.getD "" }

/-- The service clients ingest.py constructs after its configuration checks:
the embedding-model wrapper (step 3) and the search client backing the vector
store (step 4). -/
structure IngestClients where
  embed_deployment : String
  search_client : SearchClient
deriving DecidableEq, Repr

/-- Module start of ingest.py up to step 4: validate configuration, and only
on success construct the embedding model and search clients. -/
def ingest_startup (env : Env) : Except String (IngestConfig × IngestClients) :=
  match ingest_module_config env with
  | Except.error e => Except.error e
  | Except.ok cfg =>
    Except.ok (cfg,
      { embed_deployment := cfg.aoai_embed_model
        search_client := ⟨cfg.search_endpoint, cfg.search_index, cfg.search_key⟩ })

/-- The pipeline oracles used by ingest.py:
`load_data dir ext` models `SimpleDirectoryReader(dir, file_extractor={ext:
PDFReader()}).load_data()`; `get_nodes_from_documents size overlap docs` models
`SentenceSplitter(chunk_size=size, chunk_overlap=overlap)
.get_nodes_from_documents(docs)`; `push_index nodes` models
`VectorStoreIndex(nodes, storage_context=..., embed_model=...)`, which embeds
the chunks and pushes them into the Azure AI Search index. -/
structure IngestServices (Doc Node : Type) where
  load_data : String → String → Except String (List Doc)
  get_nodes_from_documents : Nat → Nat → List Doc → List Node
  push_index : List Node → Except String Unit

/-- A record of one pipeline step of ingest.py, with the parameters passed. -/
inductive IngestEvent (Doc Node : Type) where
  | loadCall (input_dir : String) (pdf_extension : String)
  | splitCall (chunk_size : Nat) (chunk_overlap : Nat) (docs : List Doc)
  | pushCall (nodes : List Node)
deriving DecidableEq, Repr

/-- `local_dir = "./data"` in ingest.py step 1. -/
def local_dir : String := "./data"

/-- The body of ingest.py, steps 2, 5 and 6: load the PDF documents from
`./data` (exceptions re-raised), split them with
`SentenceSplitter(chunk_size=1000, chunk_overlap=100)`, and push the resulting
chunks into the index (exceptions re-raised).  The second component is the
ordered trace of pipeline steps performed. -/
def ingest_run {Doc Node : Type} (svc : IngestServices Doc Node) :
    Except String (List Node) × List (IngestEvent Doc Node) :=
  match svc.load_data local_dir ".pdf" with
  | Except.error e => (Except.error e, [IngestEvent.loadCall local_dir ".pdf"])
  | Except.ok documents =>
    let nodes := svc.get_nodes_from_documents 1000 100 documents
    match svc.push_index nodes with
    | Except.error e =>
      (Except.error e,
       [IngestEvent.loadCall local_dir ".pdf",
        IngestEvent.splitCall 1000 100 documents,
        IngestEvent.pushCall nodes])
    | Except.ok _ =>
      (Except.ok nodes,
       [IngestEvent.loadCall local_dir ".pdf",
        IngestEvent.splitCall 1000 100 documents,
        IngestEvent.pushCall nodes])

/-- A logging handler as configured by `setup_logger` in logger_config.py:
either the rotating file handler (kind `"file"`, with its file name, maxBytes
and backupCount) or the console stream handler (kind `"console"`, which
carries the strip-non-encodable filter exactly when the console is not
UTF-8). -/
structure Handler where
  kind : String
  file_name : Option String
  max_bytes : Nat
  backup_count : Nat
  level : Nat
  strip_filter : Bool
deriving DecidableEq, Repr

/-- The rotating file handler attached by `setup_logger`. -/
def file_handler (log_file : String) (level : Nat) : Handler :=
  ⟨"file", some log_file, 5 * 1024 * 1024, 3, level, false⟩

/-- The console stream handler attached by `setup_logger`. -/
def console_handler (level : Nat) (console_utf8 : Bool) : Handler :=
  ⟨"console", none, 0, 0, level, !console_utf8⟩

/-- The mutable state of one `logging.getLogger(name)` logger. -/
structure PyLogger where
  handlers : List Handler
  level : Nat
  propagate : Bool
deriving DecidableEq, Repr

/-- A logger as `logging.getLogger` first returns it: no handlers, level
NOTSET (0), propagate True. -/
def fresh_logger : PyLogger := { handlers := [], level := 0, propagate := true }

/-- The state of the `logging` module: the logger registered under each name. -/
structure LoggingState where
  loggers : String → PyLogger

/-- Replace the logger stored under `name`. -/
def set_logger (st : LoggingState) (name : String) (lg : PyLogger) : LoggingState :=
  ⟨fun n => if n = name then lg else st.loggers n⟩

/-- `setup_logger(name, log_file, level)` of logger_config.py, acting on the
`logging` module state; `console_utf8` models whether `sys.stdout` reports a
UTF-8 encoding.  The function always applies `setLevel(level)` and
`propagate = False` to the named logger; if the logger already has handlers it
returns at that point; otherwise it attaches the rotating file handler and the
console handler (both at `level`).  Returns the new state and the returned
logger. -/
def setup_logger (st : LoggingState) (name : String) (log_file : String) (level : Nat)
    (console_utf8 : Bool) : LoggingState × PyLogger :=
  let logger0 := st.loggers name
  let logger1 : PyLogger := { logger0 with level := level, propagate := false }
  if logger1.handlers ≠ [] then
    (set_logger st name logger1, logger1)
  else
    let logger2 : PyLogger :=
      { logger1 with
          handlers := logger1.handlers ++
            [file_handler log_file level, console_handler level console_utf8] }
    (set_logger st name logger2, logger2)

/-! Concrete instances used to exercise the definitions on closed inputs. -/

/-- A sample validated configuration. -/
def sample_cfg : QueryConfig :=
  ⟨"https://aoai.example", "aoai-key", "chat", "embed",
   "https://search.example", "search-key", "client-manual-index"⟩

/-- Sample search results: one with truthy content, one with empty content,
one with no content field. -/
def sample_results : List SearchResult :=
  [⟨some "alpha", some "doc.pdf", some "d1"⟩,
   ⟨some "", some "m2", some "d2"⟩,
   ⟨none, some "m3", some "d3"⟩]

/-- Services that always succeed; the search honours `k` by truncation. -/
def svc_ok : Services Nat :=
  { embed := fun _ _ => Except.ok 7
    search := fun _ vq _ => Except.ok (sample_results.take vq.k)
    chat := fun _ _ _ _ => Except.ok "the answer" }

/-- Services whose embedding call raises. -/
def svc_embed_fail : Services Nat :=
  { embed := fun _ _ => Except.error "boom"
    search := fun _ vq _ => Except.ok (sample_results.take vq.k)
    chat := fun _ _ _ _ => Except.ok "the answer" }

/-- Services whose vector-search call raises. -/
def svc_search_fail : Services Nat :=
  { embed := fun _ _ => Except.ok 7
    search := fun _ _ _ => Except.error "down"
    chat := fun _ _ _ _ => Except.ok "the answer" }

/-- Services whose chat-completion call raises. -/
def svc_chat_fail : Services Nat :=
  { embed := fun _ _ => Except.ok 7
    search := fun _ vq _ => Except.ok (sample_results.take vq.k)
    chat := fun _ _ _ _ => Except.error "nope" }

/-- An environment with every variable unset. -/
def env_empty : Env := ⟨fun _ => none⟩

/-- Index-management services whose listing call raises. -/
def idx_svc_list_fail : IndexServices :=
  ⟨Except.error "list-fail", fun _ => Except.ok (), fun _ => Except.ok ()⟩

/-- Ingestion services whose document loading raises. -/
def ing_svc_load_fail : IngestServices String String :=
  ⟨fun _ _ => Except.error "load-fail", fun _ _ docs => docs, fun _ => Except.ok ()⟩

/-- Ingestion services that succeed; the splitter yields two chunks per
document. -/
def ing_svc_ok : IngestServices String String :=
  ⟨fun _ _ => Except.ok ["docA", "docB"], fun _ _ docs => docs ++ docs,
   fun _ => Except.ok ()⟩

/-- A logging-module state in which every logger is fresh. -/
def st0 : LoggingState := ⟨fun _ => fresh_logger⟩

/-! Helper lemmas about the embedded definitions. -/

lemma context_text_of_eq_intercalate (l : List String) :
    context_text_of l = String.intercalate "\n" l := by
  cases l with
  | nil => rfl
  | cons a as => simp [context_text_of]

lemma get_top_chunks_embed_error {E : Type} (cfg : QueryConfig) (svc : Services E)
    (query : String) (top_k : Nat) (e : String)
    (h : svc.embed query cfg.embed_deployment = Except.error e) :
    get_top_chunks cfg svc query top_k =
      ([], [ServiceCall.embedCall query cfg.embed_deployment]) := by
  unfold get_top_chunks
  rw [h]

lemma get_top_chunks_search_error {E : Type} (cfg : QueryConfig) (svc : Services E)
    (query : String) (top_k : Nat) (emb : E) (e : String)
    (he : svc.embed query cfg.embed_deployment = Except.ok emb)
    (hs : svc.search "" ⟨"vector", emb, "embedding", top_k⟩ select_fields =
      Except.error e) :
    get_top_chunks cfg svc query top_k =
      ([], [ServiceCall.embedCall query cfg.embed_deployment,
            ServiceCall.searchCall "" ⟨"vector", emb, "embedding", top_k⟩
              select_fields]) := by
  unfold get_top_chunks
  rw [he]
  dsimp only
  rw [hs]

lemma get_top_chunks_ok {E : Type} (cfg : QueryConfig) (svc : Services E)
    (query : String) (top_k : Nat) (emb : E) (results : List SearchResult)
    (he : svc.embed query cfg.embed_deployment = Except.ok emb)
    (hs : svc.search "" ⟨"vector", emb, "embedding", top_k⟩ select_fields =
      Except.ok results) :
    get_top_chunks cfg svc query top_k =
      (results.filterMap chunk_of_result,
       [ServiceCall.embedCall query cfg.embed_deployment,
        ServiceCall.searchCall "" ⟨"vector", emb, "embedding", top_k⟩
          select_fields]) := by
  unfold get_top_chunks
  rw [he]
  dsimp only
  rw [hs]

lemma chunk_of_result_eq_some {r : SearchResult} {c : String}
    (h : chunk_of_result r = some c) :
    ∃ body, r.content = some body ∧ body ≠ "" ∧
      c = body ++ "\n(Source: " ++
        (if r.metadata.getD "" = "" then r.doc_id.getD "" else r.metadata.getD "") ++
        ")" := by
  unfold chunk_of_result at h
  cases hc : r.content with
  | none => rw [hc] at h; exact absurd h (by simp)
  | some body =>
    rw [hc] at h
    dsimp only at h
    by_cases hb : body = ""
    · rw [if_pos hb] at h; exact absurd h (by simp)
    · rw [if_neg hb] at h
      exact ⟨body, rfl, hb, (Option.some_inj.mp h).symm⟩

/-! Claim theorems. -/

/-- Claim C1: for every user query and every prior chat history,
`generate_answer` sends the chat-completion API exactly the prior chat history
(copied by value; in this pure embedding the deep copy of the Python source is
value semantics, and the persisted history is built separately, so the caller's
list is not extended with these prompt messages), followed by one system
instruction message, followed by one final user message whose content is
"Context:" plus the newline-joined retrieved context chunks plus the user's
question. -/
theorem c1_prompt_assembly {E : Type} (cfg : QueryConfig) (svc : Services E)
    (user_query : String) (chat_history : List Message) :
    (generate_answer cfg svc user_query chat_history).chat_calls =
      [ServiceCall.chatCall cfg.chat_deployment
        (chat_history ++
          [⟨"system", system_instruction⟩,
           ⟨"user", "Context:\n" ++
              String.intercalate "\n" (get_top_chunks cfg svc user_query 10).1 ++
              "\n\nQuestion: " ++ user_query⟩])
        2 1000] := by
  unfold generate_answer assembled_messages
  rw [context_text_of_eq_intercalate]

/-- Claim C6: for every user query, `generate_answer` calls the chat model
exactly once, and when retrieval returns no chunks (in particular when
retrieval failed and `get_top_chunks` fell back to the empty list) the context
portion of the final user message is the empty string and the chat model is
still called with the assembled messages rather than the query being
rejected. -/
theorem c6_chat_called_once {E : Type} (cfg : QueryConfig) (svc : Services E)
    (user_query : String) (chat_history : List Message) :
    (generate_answer cfg svc user_query chat_history).chat_calls.length = 1 ∧
    ((get_top_chunks cfg svc user_query 10).1 = [] →
      (generate_answer cfg svc user_query chat_history).chat_calls =
        [ServiceCall.chatCall cfg.chat_deployment
          (chat_history ++
            [⟨"system", system_instruction⟩,
             ⟨"user", "Context:\n" ++ "" ++ "\n\nQuestion: " ++ user_query⟩])
          2 1000]) := by
  constructor
  · rfl
  · intro hempty
    unfold generate_answer assembled_messages
    rw [hempty]
    rfl

/-- Claim C6 witness: with services whose embedding call fails, retrieval
yields no chunks, yet the chat model is still called exactly once with an
empty context portion. -/
theorem c6_chat_called_once_witness :
    (generate_answer sample_cfg svc_embed_fail "q" []).chat_calls.length = 1 ∧
    (generate_answer sample_cfg svc_embed_fail "q" []).chat_calls =
      [ServiceCall.chatCall "chat"
        ([] ++
          [⟨"system", system_instruction⟩,
           ⟨"user", "Context:\n" ++ "" ++ "\n\nQuestion: " ++ "q"⟩])
        2 1000] :=
  ⟨(c6_chat_called_once sample_cfg svc_embed_fail "q" []).1,
   (c6_chat_called_once sample_cfg svc_embed_fail "q" []).2 rfl⟩

/-- Claim C8: one call `generate_answer(user_query, chat_history)` changes the
persisted chat history only by appending exactly two entries at its end, first
the plain user turn and then the assistant turn carrying the returned answer;
every earlier entry is unchanged.  Because the new history is exactly the old
history plus those two plain entries, neither the system instruction message
nor the context-augmented user message is ever stored in it. -/
theorem c8_history_frame {E : Type} (cfg : QueryConfig) (svc : Services E)
    (user_query : String) (chat_history : List Message) :
    (generate_answer cfg svc user_query chat_history).chat_history =
      chat_history ++
        [⟨"user", user_query⟩,
         ⟨"assistant", (generate_answer cfg svc user_query chat_history).answer⟩] ∧
    (generate_answer cfg svc user_query chat_history).chat_history.take
        chat_history.length = chat_history := by
  constructor
  · rfl
  · show (chat_history ++ _).take chat_history.length = chat_history
    exact List.take_left chat_history _

/-- Claim C9: `get_top_chunks` never raises to its caller (its embedded result
type is a plain list, every service exception being caught inside the
function's `try` block): whenever the embedding call or the vector-search call
fails, the function returns the empty chunk list. -/
theorem c9_retrieval_never_raises {E : Type} (cfg : QueryConfig) (svc : Services E)
    (query : String) (top_k : Nat) :
    (∀ e, svc.embed query cfg.embed_deployment = Except.error e →
      (get_top_chunks cfg svc query top_k).1 = []) ∧
    (∀ emb e, svc.embed query cfg.embed_deployment = Except.ok emb →
      svc.search "" ⟨"vector", emb, "embedding", top_k⟩ select_fields =
        Except.error e →
      (get_top_chunks cfg svc query top_k).1 = []) := by
  constructor
  · intro e he
    rw [get_top_chunks_embed_error cfg svc query top_k e he]
  · intro emb e he hs
    rw [get_top_chunks_search_error cfg svc query top_k emb e he hs]

/-- Claim C9 witness: with a failing embedding call and, separately, a failing
search call, the function returns the empty list. -/
theorem c9_retrieval_never_raises_witness :
    (get_top_chunks sample_cfg svc_embed_fail "q" 10).1 = [] ∧
    (get_top_chunks sample_cfg svc_search_fail "q" 10).1 = [] :=
  ⟨(c9_retrieval_never_raises sample_cfg svc_embed_fail "q" 10).1 "boom" rfl,
   (c9_retrieval_never_raises sample_cfg svc_search_fail "q" 10).2 7 "down" rfl rfl⟩

lemma svc_ok_search_le :
    ∀ (st : String) (vq : VectorQuery Nat) (sel : List String)
      (res : List SearchResult),
      svc_ok.search st vq sel = Except.ok res → res.length ≤ vq.k := by
  intro st vq sel res h
  simp only [svc_ok] at h
  cases h
  exact List.length_take_le vq.k sample_results

/-- Claim C3: for every query string and positive `top_k`, `get_top_chunks`
embeds the query, issues the vector search with `kind="vector"` over the
`embedding` field requesting `k = top_k` results, and returns at most `top_k`
chunk strings (given the service contract that a search returns at most `k`
results), each chunk being built only from a retrieved result with non-empty
content. -/
theorem c3_top_chunks {E : Type} (cfg : QueryConfig) (svc : Services E)
    (query : String) (top_k : Nat) (hpos : 0 < top_k)
    (hk : ∀ (st : String) (vq : VectorQuery E) (sel : List String)
      (res : List SearchResult),
      svc.search st vq sel = Except.ok res → res.length ≤ vq.k) :
    ServiceCall.embedCall query cfg.embed_deployment ∈
      (get_top_chunks cfg svc query top_k).2 ∧
    (∀ emb, svc.embed query cfg.embed_deployment = Except.ok emb →
      ServiceCall.searchCall "" ⟨"vector", emb, "embedding", top_k⟩ select_fields ∈
        (get_top_chunks cfg svc query top_k).2) ∧
    (get_top_chunks cfg svc query top_k).1.length ≤ top_k ∧
    (∀ c ∈ (get_top_chunks cfg svc query top_k).1,
      ∃ emb results, svc.embed query cfg.embed_deployment = Except.ok emb ∧
        svc.search "" ⟨"vector", emb, "embedding", top_k⟩ select_fields =
          Except.ok results ∧
        ∃ r ∈ results, chunk_of_result r = some c ∧
          ∃ body, r.content = some body ∧ body ≠ "") := by
  cases hembed : svc.embed query cfg.embed_deployment with
  | error e =>
    have hg := get_top_chunks_embed_error cfg svc query top_k e hembed
    rw [hg]
    refine ⟨by simp, ?_, by simp, by simp⟩
    intro emb h
    exact absurd h (by simp)
  | ok emb =>
    cases hsearch : svc.search "" ⟨"vector", emb, "embedding", top_k⟩ select_fields with
    | error e =>
      have hg := get_top_chunks_search_error cfg svc query top_k emb e hembed hsearch
      rw [hg]
      refine ⟨by simp, ?_, by simp, by simp⟩
      intro emb' h
      cases h
      simp
    | ok results =>
      have hg := get_top_chunks_ok cfg svc query top_k emb results hembed hsearch
      rw [hg]
      refine ⟨by simp, ?_, ?_, ?_⟩
      · intro emb' h
        cases h
        simp
      · exact le_trans (List.length_filterMap_le _ _) (hk _ _ _ _ hsearch)
      · intro c hc
        obtain ⟨r, hr, hcr⟩ := List.mem_filterMap.mp hc
        obtain ⟨body, hbody, hne, _⟩ := chunk_of_result_eq_some hcr
        exact ⟨emb, results, rfl, hsearch, r, hr, hcr, body, hbody, hne⟩

/-- Claim C3 witness: with the always-succeeding sample services, retrieval at
`top_k = 10` records the embed call and returns at most ten chunks. -/
theorem c3_top_chunks_witness :
    0 < 10 ∧
    ServiceCall.embedCall "q" "embed" ∈ (get_top_chunks sample_cfg svc_ok "q" 10).2 ∧
    (get_top_chunks sample_cfg svc_ok "q" 10).1.length ≤ 10 :=
  ⟨by decide,
   (c3_top_chunks sample_cfg svc_ok "q" 10 (by decide) svc_ok_search_le).1,
   (c3_top_chunks sample_cfg svc_ok "q" 10 (by decide) svc_ok_search_le).2.2.1⟩

/-- Claim C4: answering a user query proceeds in this fixed order: the query
is embedded, the vector search is issued with the embedding just produced, the
retrieved chunk strings are joined with newlines into the context text, the
chat-completion API is called once with the assembled messages, and the UI
rendering after `st.rerun()` reflects the answer returned by that chat call.
The ordered call trace and the data dependences between the steps witness the
sequencing. -/
theorem c4_linear_pipeline {E : Type} (cfg : QueryConfig) (svc : Services E)
    (prompt : String) (state : SessionState) (emb : E)
    (results : List SearchResult)
    (he : svc.embed prompt cfg.embed_deployment = Except.ok emb)
    (hs : svc.search "" ⟨"vector", emb, "embedding", 10⟩ select_fields =
      Except.ok results) :
    (chat_input_handler cfg svc prompt state).calls =
      [ServiceCall.embedCall prompt cfg.embed_deployment,
       ServiceCall.searchCall "" ⟨"vector", emb, "embedding", 10⟩ select_fields,
       ServiceCall.chatCall cfg.chat_deployment
         (state.chat_history ++
           [⟨"system", system_instruction⟩,
            ⟨"user", "Context:\n" ++
               String.intercalate "\n" (results.filterMap chunk_of_result) ++
               "\n\nQuestion: " ++ prompt⟩])
         2 1000] ∧
    (chat_input_handler cfg svc prompt state).rendered =
      render_history (state.chat_history ++
        [⟨"user", prompt⟩,
         ⟨"assistant", (generate_answer cfg svc prompt state.chat_history).answer⟩]) := by
  have hg := get_top_chunks_ok cfg svc prompt 10 emb results he hs
  constructor
  · unfold chat_input_handler generate_answer assembled_messages
    rw [hg, context_text_of_eq_intercalate]
    rfl
  · rfl

/-- Claim C4 witness: the pipeline on the sample services issues exactly
embed, search, chat in that order and renders the updated transcript. -/
theorem c4_linear_pipeline_witness :
    (chat_input_handler sample_cfg svc_ok "q" ⟨[]⟩).calls =
      [ServiceCall.embedCall "q" "embed",
       ServiceCall.searchCall "" ⟨"vector", 7, "embedding", 10⟩ select_fields,
       ServiceCall.chatCall "chat"
         ([] ++
           [⟨"system", system_instruction⟩,
            ⟨"user", "Context:\n" ++
               String.intercalate "\n"
                 ((sample_results.take 10).filterMap chunk_of_result) ++
               "\n\nQuestion: " ++ "q"⟩])
         2 1000] ∧
    (chat_input_handler sample_cfg svc_ok "q" ⟨[]⟩).rendered =
      render_history ([] ++
        [⟨"user", "q"⟩,
         ⟨"assistant", (generate_answer sample_cfg svc_ok "q" []).answer⟩]) :=
  c4_linear_pipeline sample_cfg svc_ok "q" ⟨[]⟩ 7 (sample_results.take 10) rfl rfl

/-- Claim C7: the ingestion pipeline, in order, loads the PDF documents from
the local `./data` directory, splits them into sentence-based chunks with
chunk size 1000 and overlap 100, and pushes exactly the chunks the splitter
produced into the index; in particular the pushed chunk count equals the
splitter's chunk count. -/
theorem c7_ingest_pipeline {Doc Node : Type} (svc : IngestServices Doc Node)
    (docs : List Doc)
    (hload : svc.load_data local_dir ".pdf" = Except.ok docs)
    (hpush : svc.push_index (svc.get_nodes_from_documents 1000 100 docs) =
      Except.ok ()) :
    ingest_run svc =
      (Except.ok (svc.get_nodes_from_documents 1000 100 docs),
       [IngestEvent.loadCall local_dir ".pdf",
        IngestEvent.splitCall 1000 100 docs,
        IngestEvent.pushCall (svc.get_nodes_from_documents 1000 100 docs)]) ∧
    local_dir = "./data" ∧
    (∀ nodes, IngestEvent.pushCall nodes ∈ (ingest_run svc).2 →
      nodes.length = (svc.get_nodes_from_documents 1000 100 docs).length) := by
  have hrun : ingest_run svc =
      (Except.ok (svc.get_nodes_from_documents 1000 100 docs),
       [IngestEvent.loadCall local_dir ".pdf",
        IngestEvent.splitCall 1000 100 docs,
        IngestEvent.pushCall (svc.get_nodes_from_documents 1000 100 docs)]) := by
    unfold ingest_run
    rw [hload]
    dsimp only
    rw [hpush]
  refine ⟨hrun, rfl, ?_⟩
  intro nodes hmem
  rw [hrun] at hmem
  simp only [List.mem_cons, List.mem_singleton] at hmem
  rcases hmem with h | h | h | h
  · exact absurd h (by simp)
  · exact absurd h (by simp)
  · rw [IngestEvent.pushCall.injEq] at h
    rw [h]
  · exact absurd h (by simp)

/-- Claim C7 witness: with two sample documents and a splitter producing two
chunks per document, the pipeline pushes exactly the four splitter chunks. -/
theorem c7_ingest_pipeline_witness :
    ingest_run ing_svc_ok =
      (Except.ok (ing_svc_ok.get_nodes_from_documents 1000 100 ["docA", "docB"]),
       [IngestEvent.loadCall local_dir ".pdf",
        IngestEvent.splitCall 1000 100 ["docA", "docB"],
        IngestEvent.pushCall
          (ing_svc_ok.get_nodes_from_documents 1000 100 ["docA", "docB"])]) ∧
    local_dir = "./data" :=
  ⟨(c7_ingest_pipeline ing_svc_ok ["docA", "docB"] rfl rfl).1,
   (c7_ingest_pipeline ing_svc_ok ["docA", "docB"] rfl rfl).2.1⟩

lemma create_index_config_error_of_untruthy {env : Env}
    (h : py_truthy (env.getenv "AZURE_SEARCH_ENDPOINT") = false ∨
      py_truthy (env.getenv "AZURE_SEARCH_API_KEY") = false) :
    create_index_config env =
      Except.error "Azure Search endpoint and key must be set in environment variables" := by
  unfold create_index_config
  rcases h with h | h <;> simp [h]

lemma ingest_config_error_of_untruthy {env : Env}
    (h : py_truthy (env.getenv "AZURE_SEARCH_ENDPOINT") = false ∨
      py_truthy (env.getenv "AZURE_SEARCH_API_KEY") = false ∨
      py_truthy (env.getenv "AZURE_SEARCH_INDEX") = false ∨
      py_truthy (env.getenv "AZURE_OPENAI_ENDPOINT") = false ∨
      py_truthy (env.getenv "AZURE_OPENAI_API_KEY") = false ∨
      py_truthy (env.getenv "AZURE_OPENAI_EMBED_DEPLOYMENT") = false) :
    ∃ m, ingest_module_config env = Except.error m := by
  unfold ingest_module_config
  rcases h with h | h | h | h | h | h <;> simp [h] <;> split <;> simp

lemma query_config_error_of_untruthy {env : Env}
    (h : py_truthy (env.getenv "AZURE_OPENAI_ENDPOINT") = false ∨
      py_truthy (env.getenv "AZURE_OPENAI_API_KEY") = false ∨
      py_truthy (env.getenv "AZURE_SEARCH_ENDPOINT") = false ∨
      py_truthy (env.getenv "AZURE_SEARCH_API_KEY") = false ∨
      py_truthy (env.getenv "AZURE_SEARCH_INDEX") = false) :
    ∃ m, query_module_config env = Except.error m := by
  unfold query_module_config
  rcases h with h | h | h | h | h <;> simp [h] <;> split <;> simp

lemma create_index_startup_error_of_config {env : Env} {m : String}
    (h : create_index_config env = Except.error m) :
    create_index_startup env = Except.error m := by
  unfold create_index_startup
  rw [h]

lemma ingest_startup_error_of_config {env : Env} {m : String}
    (h : ingest_module_config env = Except.error m) :
    ingest_startup env = Except.error m := by
  unfold ingest_startup
  rw [h]

lemma query_startup_error_of_config {env : Env} {m : String}
    (h : query_module_config env = Except.error m) :
    query_module_startup env = Except.error m := by
  unfold query_module_startup
  rw [h]

/-- Claim C5: in each of the three modules, if a required configuration
variable is unset or empty (Azure Search endpoint/key for all three, the
Azure Search index name for ingest.py and query.py, Azure OpenAI endpoint/key
for ingest.py and query.py, and the embedding deployment for ingest.py), the
module startup raises `ValueError` before any service client is constructed:
the startup result is the configuration error, and the client records are
built only in the success branch, after the checks pass. -/
theorem c5_config_validation (env : Env) :
    ((py_truthy (env.getenv "AZURE_SEARCH_ENDPOINT") = false ∨
      py_truthy (env.getenv "AZURE_SEARCH_API_KEY") = false) →
      ∃ m, create_index_startup env = Except.error m) ∧
    ((py_truthy (env.getenv "AZURE_SEARCH_ENDPOINT") = false ∨
      py_truthy (env.getenv "AZURE_SEARCH_API_KEY") = false ∨
      py_truthy (env.getenv "AZURE_SEARCH_INDEX") = false ∨
      py_truthy (env.getenv "AZURE_OPENAI_ENDPOINT") = false ∨
      py_truthy (env.getenv "AZURE_OPENAI_API_KEY") = false ∨
      py_truthy (env.getenv "AZURE_OPENAI_EMBED_DEPLOYMENT") = false) →
      ∃ m, ingest_startup env = Except.error m) ∧
    ((py_truthy (env.getenv "AZURE_OPENAI_ENDPOINT") = false ∨
      py_truthy (env.getenv "AZURE_OPENAI_API_KEY") = false ∨
      py_truthy (env.getenv "AZURE_SEARCH_ENDPOINT") = false ∨
      py_truthy (env.getenv "AZURE_SEARCH_API_KEY") = false ∨
      py_truthy (env.getenv "AZURE_SEARCH_INDEX") = false) →
      ∃ m, query_module_startup env = Except.error m) := by
  refine ⟨?_, ?_, ?_⟩
  · intro h
    exact ⟨_, create_index_startup_error_of_config (create_index_config_error_of_untruthy h)⟩
  · intro h
    obtain ⟨m, hm⟩ := ingest_config_error_of_untruthy h
    exact ⟨m, ingest_startup_error_of_config hm⟩
  · intro h
    obtain ⟨m, hm⟩ := query_config_error_of_untruthy h
    exact ⟨m, query_startup_error_of_config hm⟩

/-- Claim C5 witness: with every environment variable unset, all three module
startups fail with a configuration error. -/
theorem c5_config_validation_witness :
    py_truthy (env_empty.getenv "AZURE_SEARCH_ENDPOINT") = false ∧
    (∃ m, create_index_startup env_empty = Except.error m) ∧
    (∃ m, ingest_startup env_empty = Except.error m) ∧
    (∃ m, query_module_startup env_empty = Except.error m) :=
  ⟨rfl,
   (c5_config_validation env_empty).1 (Or.inl rfl),
   (c5_config_validation env_empty).2.1 (Or.inl rfl),
   (c5_config_validation env_empty).2.2 (Or.inl rfl)⟩

/-- Claim C2, counterexample to the claim as stated: when chunk retrieval
fails (here the embedding call raises), `get_top_chunks` logs and returns the
EMPTY LIST to its caller, not an error string — the returned list contains no
string at all, so no error string reaches the caller from this failure
path. -/
theorem c2_counterexample :
    get_top_chunks sample_cfg svc_embed_fail "q" 10 =
      ([], [ServiceCall.embedCall "q" "embed"]) := rfl

/-- Claim C2 as amended: every failure path follows one of exactly two
policies — it logs the exception and re-raises it (index creation in
create_index.py, document loading and index building/pushing in ingest.py:
the `Except.error` propagates unchanged), or it logs the exception and
returns a benign fallback value to the caller (answer generation returns the
error string "Error generating response: ...", chunk retrieval returns the
empty list). -/
theorem c2_failure_policies :
    (∀ (svc : IndexServices) (index_name e : String),
      svc.list_index_names = Except.error e →
      create_index_run svc index_name = Except.error e) ∧
    (∀ (svc : IndexServices) (index_name e : String) (existing : List String),
      svc.list_index_names = Except.ok existing → index_name ∈ existing →
      svc.delete_index index_name = Except.error e →
      create_index_run svc index_name = Except.error e) ∧
    (∀ (svc : IndexServices) (index_name e : String) (existing : List String),
      svc.list_index_names = Except.ok existing →
      svc.delete_index index_name = Except.ok () →
      svc.create_index index_name = Except.error e →
      create_index_run svc index_name = Except.error e) ∧
    (∀ (Doc Node : Type) (svc : IngestServices Doc Node) (e : String),
      (svc.load_data local_dir ".pdf" = Except.error e →
        (ingest_run svc).1 = Except.error e) ∧
      (∀ docs, svc.load_data local_dir ".pdf" = Except.ok docs →
        svc.push_index (svc.get_nodes_from_documents 1000 100 docs) =
          Except.error e →
        (ingest_run svc).1 = Except.error e)) ∧
    (∀ (E : Type) (cfg : QueryConfig) (svc : Services E) (user_query : String)
      (chat_history : List Message) (e : String),
      svc.chat cfg.chat_deployment
          (assembled_messages cfg svc user_query chat_history) 2 1000 =
        Except.error e →
      (generate_answer cfg svc user_query chat_history).answer =
        "Error generating response: " ++ e) ∧
    (∀ (E : Type) (cfg : QueryConfig) (svc : Services E) (query : String)
      (top_k : Nat) (e : String),
      (svc.embed query cfg.embed_deployment = Except.error e →
        (get_top_chunks cfg svc query top_k).1 = []) ∧
      (∀ emb, svc.embed query cfg.embed_deployment = Except.ok emb →
        svc.search "" ⟨"vector", emb, "embedding", top_k⟩ select_fields =
          Except.error e →
        (get_top_chunks cfg svc query top_k).1 = [])) := by
  refine ⟨?_, ?_, ?_, ?_, ?_, ?_⟩
  · intro svc index_name e h
    unfold create_index_run
    rw [h]
  · intro svc index_name e existing hlist hmem hdel
    unfold create_index_run
    rw [hlist]
    dsimp only
    rw [if_pos hmem, hdel]
  · intro svc index_name e existing hlist hdel hcreate
    unfold create_index_run
    rw [hlist]
    dsimp only
    by_cases hmem : index_name ∈ existing
    · rw [if_pos hmem, hdel]
      dsimp only
      exact hcreate
    · rw [if_neg hmem]
      exact hcreate
  · intro Doc Node svc e
    constructor
    · intro h
      unfold ingest_run
      rw [h]
    · intro docs hload hpush
      unfold ingest_run
      rw [hload]
      dsimp only
      rw [hpush]
  · intro E cfg svc user_query chat_history e h
    unfold generate_answer
    dsimp only
    rw [h]
  · intro E cfg svc query top_k e
    constructor
    · intro h
      rw [get_top_chunks_embed_error cfg svc query top_k e h]
    · intro emb he hs
      rw [get_top_chunks_search_error cfg svc query top_k emb e he hs]

/-- Claim C2 witness for the amended claim: a failing index listing re-raises
its error, a failing document load re-raises its error, a failing chat call
yields the error-string answer, and a failing embedding call yields the empty
chunk list. -/
theorem c2_failure_policies_witness :
    create_index_run idx_svc_list_fail "client-manual-index" =
      Except.error "list-fail" ∧
    (ingest_run ing_svc_load_fail).1 = Except.error "load-fail" ∧
    (generate_answer sample_cfg svc_chat_fail "q" []).answer =
      "Error generating response: " ++ "nope" ∧
    (get_top_chunks sample_cfg svc_embed_fail "q" 10).1 = [] :=
  ⟨c2_failure_policies.1 idx_svc_list_fail "client-manual-index" "list-fail" rfl,
   (c2_failure_policies.2.2.2.1 String String ing_svc_load_fail "load-fail").1 rfl,
   c2_failure_policies.2.2.2.2.1 Nat sample_cfg svc_chat_fail "q" [] "nope" rfl,
   (c2_failure_policies.2.2.2.2.2 Nat sample_cfg svc_embed_fail "q" 10 "boom").1 rfl⟩

/-- Claim C10, counterexample to the claim as stated: `setup_logger` applies
`setLevel(level)` before the early return, so a second call with a different
level does NOT return the logger unchanged — here a first call at level 20 is
followed by a call at level 10 and the returned logger differs (its level is
now 10). -/
theorem c10_counterexample :
    (setup_logger (setup_logger st0 "app" "a.log" 20 true).1 "app" "b.log" 10
        true).2 ≠
      (setup_logger st0 "app" "a.log" 20 true).2 := by
  decide

/-- Claim C10 as amended: `setup_logger` attaches handlers at most once per
logger name — a first call (no handlers attached yet) attaches exactly one
file handler and one console handler; a subsequent call (handlers already
attached) attaches no additional handlers, leaving the handler list unchanged
regardless of the `log_file` argument, but it does re-apply `setLevel(level)`
and `propagate = False` before returning the stored logger. -/
theorem c10_logger_setup (st : LoggingState) (name log_file : String)
    (level : Nat) (console_utf8 : Bool) :
    ((st.loggers name).handlers = [] →
      (setup_logger st name log_file level console_utf8).2 =
        { handlers := [file_handler log_file level,
            console_handler level console_utf8],
          level := level, propagate := false }) ∧
    ((st.loggers name).handlers ≠ [] →
      (setup_logger st name log_file level console_utf8).2 =
        { st.loggers name with level := level, propagate := false }) := by
  constructor
  · intro h
    unfold setup_logger
    dsimp only
    rw [h]
    simp
  · intro h
    unfold setup_logger
    dsimp only
    rw [if_pos h]

/-- Claim C10 witness: a first call on a fresh logger attaches exactly the
file and console handlers; a second call on the same name attaches nothing
further and returns the stored logger with only level and propagate
re-applied. -/
theorem c10_logger_setup_witness :
    (setup_logger st0 "app" "a.log" 20 true).2 =
      { handlers := [file_handler "a.log" 20, console_handler 20 true],
        level := 20, propagate := false } ∧
    (setup_logger (setup_logger st0 "app" "a.log" 20 true).1 "app" "b.log" 10
        true).2 =
      { (setup_logger st0 "app" "a.log" 20 true).1.loggers "app" with
          level := 10, propagate := false } :=
  ⟨(c10_logger_setup st0 "app" "a.log" 20 true).1 rfl,
   (c10_logger_setup (setup_logger st0 "app" "a.log" 20 true).1 "app" "b.log" 10
      true).2 (by decide)⟩

end RagBot
